import Mathlib

/-!
# Exception vector dispatch and ESR exception-class decode

A shallow embedding of `src/esr.h`, `src/asm_sysreg.h` and
`bsp/standalone_all_el_levels_v1_0/src/arm/common/vectors.c`.

* `uint64_t` values are natural numbers reduced modulo `2 ^ 64`.
* A function pointer and a `void *` are natural numbers (their addresses).
* The effect of a trampoline is the sequence of indirect calls it issues, each
  recorded with the address it is made through and the argument it carries.
  What the callee does is not part of these files and is not modelled.
* `XExc_VectorTable` and the `XIL_EXCEPTION_ID_*` indices are declared in
  `xil_exception.h`, which is not one of the three files above; the table and each index
  are parameters of the trampolines that use them.
* esr.h writes a comma after the name in every `#define`, and the decode masks with a name
  that is declared nowhere. The two names the decode uses are parameters, and the theorems
  on the decode say for which values of them each property holds.
-/

namespace Vectors

/-! ## esr.h -/

/-- Number of values of a `uint64_t`. -/
def U64_MODULUS : Nat := 2 ^ 64

/-- The function `esr_elx_ec_value_get` of esr.h (lines 21-24):
`return ((esr_value >> ESR_ELX_EC_OFFSET) & EST_ElX_EX_MASK);`.

Neither name in the body stands for a number in esr.h as it is written. Line 19 is
`#define ESR_ELX_EC_OFFSET, 26`: the comma after the name belongs to the replacement list,
so the name expands to `, 26`. The name `EST_ElX_EX_MASK` is declared nowhere; line 18
declares another name, `#define ESR_ELX_EC_MASK,   0x3F`, again with the comma. Both names
are therefore parameters: this is the body for the numbers the two names stand for, and no
statement below gives them a value without saying so. The argument is a `uint64_t`, so it is
reduced modulo `2 ^ 64` on entry, and so is the returned value. For a shift amount of 64 or
more C defines no result; the shift of the model gives 0 there. -/
def esr_elx_ec_value_get (ESR_ELX_EC_OFFSET EST_ElX_EX_MASK : Nat) (esr_value : Nat) : Nat :=
  (((esr_value % U64_MODULUS) >>> ESR_ELX_EC_OFFSET) &&& EST_ElX_EX_MASK) % U64_MODULUS

/-! ### Exception class literals (esr.h lines 31-88)

Each line of the header is written `#define NAME, (0b...) /* 0x.. */`, with a comma after
the name, so each name expands to `, (0b...)`. The definitions below are the binary
literals of those replacement lists, under the names of the lines they stand on. -/

def ESR_ELX_EC_UNKNOWN : Nat := 0b000000
def ESR_ELX_EC_WFX : Nat := 0b000001
def ESR_ELX_EC_CP15_MR : Nat := 0b000011
def ESR_ELX_EC_CP15_MRR : Nat := 0b000100
def ESR_ELX_EC_CP14_MR : Nat := 0b000101
def ESR_ELX_EC_CP14_LS : Nat := 0b000110
def ESR_ELX_EC_ASIMD : Nat := 0b000111
def ESR_ELX_EC_CP10_ID : Nat := 0b001000
def ESR_ELX_EC_PAC : Nat := 0b001001
def ESR_ELX_EC_LS64 : Nat := 0b001010
def ESR_ELX_EC_CP14_MRR : Nat := 0b001100
def ESR_ELX_EC_BTI : Nat := 0b001101
def ESR_ELX_EC_ILL : Nat := 0b001110
def ESR_ELX_EC_SVC_32 : Nat := 0b010001
def ESR_ELX_EC_HVC_32 : Nat := 0b010010
def ESR_ELX_EC_SMC_32 : Nat := 0b010011
def ESR_ELX_EC_SVC_64 : Nat := 0b010101
def ESR_ELX_EC_HVC_64 : Nat := 0b010110
def ESR_ELX_EC_SMC_64 : Nat := 0b010111
def ESR_ELX_EC_SYS_64 : Nat := 0b011000
def ESR_ELX_EC_SVE_64 : Nat := 0b011001
def ESR_ELX_EC_ERET : Nat := 0b011010
def ESR_ELX_EC_FPAC : Nat := 0b011100
def ESR_ELX_EC_SME : Nat := 0b011101
def ESR_ELX_EC_IMP_DEF : Nat := 0b011111
def ESR_ELX_EC_IABT_LOW : Nat := 0b100000
def ESR_ELX_EC_IABT_CUR : Nat := 0b100001
def ESR_ELX_EC_PC_ALIGN : Nat := 0b100010
def ESR_ELX_EC_DABT_LOW : Nat := 0b100100
def ESR_ELX_EC_DABT_CUR : Nat := 0b100101
def ESR_ELX_EC_SP_ALIGN : Nat := 0b100110
def ESR_ELX_EC_MOPS : Nat := 0b100111
def ESR_ELX_EC_FP_32 : Nat := 0b101000
def ESR_ELX_EC_FP_64 : Nat := 0b101100
def ESR_ELX_EC_SERROR : Nat := 0b101111
def ESR_ELx_EC_BREAKPT_LOW : Nat := 0b110000
def ESR_ELx_EC_BREAKPT_CUR : Nat := 0b110001
def ESR_ELx_EC_SW_STEP_LOW : Nat := 0b110010
def ESR_ELx_EC_SW_STEP_CUR : Nat := 0b110011
def ESR_ELx_EC_WATCHPT_LOW : Nat := 0b110100
def ESR_ELx_EC_WATCHPT_CUR : Nat := 0b110101
def ESR_ELx_EC_BKPT32 : Nat := 0b111000
def ESR_ELx_EC_VECTOR32 : Nat := 0b111010
def ESR_ELx_EC_BRK64 : Nat := 0b111100
def ESR_ELx_EC_MAX : Nat := 0b111111

/-- The binary literal of every exception class line of esr.h, in the order of the header. -/
def ESR_EC_constants : List Nat :=
  [
    ESR_ELX_EC_UNKNOWN, ESR_ELX_EC_WFX, ESR_ELX_EC_CP15_MR, ESR_ELX_EC_CP15_MRR,
    ESR_ELX_EC_CP14_MR, ESR_ELX_EC_CP14_LS, ESR_ELX_EC_ASIMD, ESR_ELX_EC_CP10_ID,
    ESR_ELX_EC_PAC, ESR_ELX_EC_LS64, ESR_ELX_EC_CP14_MRR, ESR_ELX_EC_BTI, ESR_ELX_EC_ILL,
    ESR_ELX_EC_SVC_32, ESR_ELX_EC_HVC_32, ESR_ELX_EC_SMC_32, ESR_ELX_EC_SVC_64,
    ESR_ELX_EC_HVC_64, ESR_ELX_EC_SMC_64, ESR_ELX_EC_SYS_64, ESR_ELX_EC_SVE_64, ESR_ELX_EC_ERET,
    ESR_ELX_EC_FPAC, ESR_ELX_EC_SME, ESR_ELX_EC_IMP_DEF, ESR_ELX_EC_IABT_LOW,
    ESR_ELX_EC_IABT_CUR, ESR_ELX_EC_PC_ALIGN, ESR_ELX_EC_DABT_LOW, ESR_ELX_EC_DABT_CUR,
    ESR_ELX_EC_SP_ALIGN, ESR_ELX_EC_MOPS, ESR_ELX_EC_FP_32, ESR_ELX_EC_FP_64, ESR_ELX_EC_SERROR,
    ESR_ELx_EC_BREAKPT_LOW, ESR_ELx_EC_BREAKPT_CUR, ESR_ELx_EC_SW_STEP_LOW,
    ESR_ELx_EC_SW_STEP_CUR, ESR_ELx_EC_WATCHPT_LOW, ESR_ELx_EC_WATCHPT_CUR, ESR_ELx_EC_BKPT32,
    ESR_ELx_EC_VECTOR32, ESR_ELx_EC_BRK64, ESR_ELx_EC_MAX
  ]

/-- The hexadecimal value written in the comment at the end of each exception class line of
esr.h, in the order of the header. -/
def ESR_EC_documented : List Nat :=
  [
    0x0, 0x1, 0x3, 0x4, 0x5, 0x6, 0x7, 0x8, 0x9, 0xA, 0xC, 0xD, 0xE, 0x11, 0x12, 0x13, 0x15,
    0x16, 0x17, 0x18, 0x19, 0x1A, 0x1C, 0x1D, 0x1F, 0x20, 0x21, 0x22, 0x24, 0x25, 0x26, 0x27,
    0x28, 0x2C, 0x2F, 0x30, 0x31, 0x32, 0x33, 0x34, 0x35, 0x38, 0x3A, 0x3C, 0x3F
  ]

/-! ## asm_sysreg.h -/

/-- The read `SYSREG_READ(reg_name)` of asm_sysreg.h: an `mrs` into a 64-bit variable. The
content of the register at the time of the read is the argument. -/
def SYSREG_READ (reg_content : Nat) : Nat := reg_content % U64_MODULUS

/-! ## vectors.c -/

/-- An entry of `XExc_VectorTable`: the fields `Handler` (a function pointer) and `Data`
(a `void *`) that vectors.c reads. -/
structure XExc_VectorTableEntry where
  Handler : Nat
  Data : Nat
deriving DecidableEq

/-- The table `XExc_VectorTable`: an array of `n` entries. Its length is declared in
`xil_exception.h` and is a parameter. -/
abbrev VectorTable (n : Nat) : Type := Fin n → XExc_VectorTableEntry

/-- One indirect call `f(d)`: the address `f` called through and the argument `d`. -/
structure Call where
  target : Nat
  arg : Nat
deriving DecidableEq

/-- The function `FIQInterrupt` (vectors.c lines 55-59). -/
def FIQInterrupt {n : Nat} (XIL_EXCEPTION_ID_FIQ_INT : Fin n)
    (XExc_VectorTable : VectorTable n) : List Call :=
  [⟨(XExc_VectorTable XIL_EXCEPTION_ID_FIQ_INT).Handler,
    (XExc_VectorTable XIL_EXCEPTION_ID_FIQ_INT).Data⟩]

/-- The function `IRQInterrupt` (vectors.c lines 70-74). -/
def IRQInterrupt {n : Nat} (XIL_EXCEPTION_ID_IRQ_INT : Fin n)
    (XExc_VectorTable : VectorTable n) : List Call :=
  [⟨(XExc_VectorTable XIL_EXCEPTION_ID_IRQ_INT).Handler,
    (XExc_VectorTable XIL_EXCEPTION_ID_IRQ_INT).Data⟩]

/-- The function `UndefinedException` (vectors.c lines 86-90, built when `__aarch64__` is
not defined). -/
def UndefinedException {n : Nat} (XIL_EXCEPTION_ID_UNDEFINED_INT : Fin n)
    (XExc_VectorTable : VectorTable n) : List Call :=
  [⟨(XExc_VectorTable XIL_EXCEPTION_ID_UNDEFINED_INT).Handler,
    (XExc_VectorTable XIL_EXCEPTION_ID_UNDEFINED_INT).Data⟩]

/-- The function `SWInterrupt` (vectors.c lines 101-105, built when `__aarch64__` is not
defined). -/
def SWInterrupt {n : Nat} (XIL_EXCEPTION_ID_SWI_INT : Fin n)
    (XExc_VectorTable : VectorTable n) : List Call :=
  [⟨(XExc_VectorTable XIL_EXCEPTION_ID_SWI_INT).Handler,
    (XExc_VectorTable XIL_EXCEPTION_ID_SWI_INT).Data⟩]

/-- The function `DataAbortInterrupt` (vectors.c lines 116-120, built when `__aarch64__` is
not defined). -/
def DataAbortInterrupt {n : Nat} (XIL_EXCEPTION_ID_DATA_ABORT_INT : Fin n)
    (XExc_VectorTable : VectorTable n) : List Call :=
  [⟨(XExc_VectorTable XIL_EXCEPTION_ID_DATA_ABORT_INT).Handler,
    (XExc_VectorTable XIL_EXCEPTION_ID_DATA_ABORT_INT).Data⟩]

/-- The function `PrefetchAbortInterrupt` (vectors.c lines 131-135, built when
`__aarch64__` is not defined). -/
def PrefetchAbortInterrupt {n : Nat} (XIL_EXCEPTION_ID_PREFETCH_ABORT_INT : Fin n)
    (XExc_VectorTable : VectorTable n) : List Call :=
  [⟨(XExc_VectorTable XIL_EXCEPTION_ID_PREFETCH_ABORT_INT).Handler,
    (XExc_VectorTable XIL_EXCEPTION_ID_PREFETCH_ABORT_INT).Data⟩]

/-- The case labels of the `switch` of `SynchronousInterrupt` (vectors.c lines 152-209), in
the order of the source, each as the literal of its line of esr.h. The `switch` has no
`default` label. -/
def SynchronousInterrupt_case_labels : List Nat :=
  [
    ESR_ELX_EC_UNKNOWN, ESR_ELX_EC_WFX, ESR_ELX_EC_CP15_MR, ESR_ELX_EC_CP15_MRR,
    ESR_ELX_EC_CP14_MR, ESR_ELX_EC_CP14_LS, ESR_ELX_EC_ASIMD, ESR_ELX_EC_CP10_ID,
    ESR_ELX_EC_PAC, ESR_ELX_EC_LS64, ESR_ELX_EC_CP14_MRR, ESR_ELX_EC_BTI, ESR_ELX_EC_ILL,
    ESR_ELX_EC_SVC_32, ESR_ELX_EC_HVC_32, ESR_ELX_EC_SMC_32, ESR_ELX_EC_SVC_64,
    ESR_ELX_EC_HVC_64, ESR_ELX_EC_SMC_64, ESR_ELX_EC_SYS_64, ESR_ELX_EC_SVE_64, ESR_ELX_EC_ERET,
    ESR_ELX_EC_FPAC, ESR_ELX_EC_SME, ESR_ELX_EC_IMP_DEF, ESR_ELX_EC_IABT_LOW,
    ESR_ELX_EC_IABT_CUR, ESR_ELX_EC_PC_ALIGN, ESR_ELX_EC_DABT_LOW, ESR_ELX_EC_DABT_CUR,
    ESR_ELX_EC_SP_ALIGN, ESR_ELX_EC_MOPS, ESR_ELX_EC_FP_32, ESR_ELX_EC_FP_64, ESR_ELX_EC_SERROR,
    ESR_ELx_EC_BREAKPT_LOW, ESR_ELx_EC_BREAKPT_CUR, ESR_ELx_EC_SW_STEP_LOW,
    ESR_ELx_EC_SW_STEP_CUR, ESR_ELx_EC_WATCHPT_LOW, ESR_ELx_EC_WATCHPT_CUR, ESR_ELx_EC_BKPT32,
    ESR_ELx_EC_VECTOR32, ESR_ELx_EC_BRK64, ESR_ELx_EC_MAX
  ]

/-- The function `SynchronousInterrupt` (vectors.c lines 147-215, built when `__aarch64__`
is defined). It reads `esr_el1`, switches on the decoded class, where every label falls
through to one `break` and a value matching no label leaves the `switch` as well, and then
calls through the slot `XIL_EXCEPTION_ID_SYNC_INT`. The two names of the decode and the
content of `esr_el1` are parameters. -/
def SynchronousInterrupt {n : Nat} (ESR_ELX_EC_OFFSET EST_ElX_EX_MASK : Nat)
    (XIL_EXCEPTION_ID_SYNC_INT : Fin n) (esr_el1 : Nat)
    (XExc_VectorTable : VectorTable n) : List Call :=
  let esr := SYSREG_READ esr_el1
  let in_switch : List Call :=
    if esr_elx_ec_value_get ESR_ELX_EC_OFFSET EST_ElX_EX_MASK esr
        ∈ SynchronousInterrupt_case_labels then []
    else []
  in_switch ++
    [⟨(XExc_VectorTable XIL_EXCEPTION_ID_SYNC_INT).Handler,
      (XExc_VectorTable XIL_EXCEPTION_ID_SYNC_INT).Data⟩]

/-- The function `SErrorInterrupt` (vectors.c lines 226-230, built when `__aarch64__` is
defined). -/
def SErrorInterrupt {n : Nat} (XIL_EXCEPTION_ID_SERROR_ABORT_INT : Fin n)
    (XExc_VectorTable : VectorTable n) : List Call :=
  [⟨(XExc_VectorTable XIL_EXCEPTION_ID_SERROR_ABORT_INT).Handler,
    (XExc_VectorTable XIL_EXCEPTION_ID_SERROR_ABORT_INT).Data⟩]

/-! ## The vector table operations of the specification -/

/-- Modelled from the spec: `lookup(id) -> entry` of section 4.2, "O(1) read of the current
entry at `id`". None of the embedded files has a function of this name. -/
def lookup {n : Nat} (tbl : VectorTable n) (id : Fin n) : XExc_VectorTableEntry :=
  tbl id

/-- Modelled from the spec: `register(id, handler, context)` of section 4.2, "overwrites the
entry at `id` with the given handler and context". The registration routine (it belongs to
`xil_exception.c`) is in none of the embedded files. -/
def register {n : Nat} (tbl : VectorTable n) (id : Fin n) (handler context : Nat) :
    VectorTable n :=
  fun j => if j = id then ⟨handler, context⟩ else tbl j

/-- Modelled from the spec: `dispatch(id)` of section 4.2, "invokes
`lookup(id).handler(lookup(id).context)`". vectors.c has no function of this name; the
trampolines of vectors.c are compared with it. -/
def dispatch {n : Nat} (tbl : VectorTable n) (id : Fin n) : List Call :=
  [⟨(lookup tbl id).Handler, (lookup tbl id).Data⟩]

/-- A table of seven entries used in the concrete instances: slot `i` holds the handler
address `0x1000 + 16 * i` and the data address `0x2000 + i`. -/
def sampleTable : VectorTable 7 :=
  fun i => ⟨0x1000 + 16 * i.val, 0x2000 + i.val⟩

/-! ## Helper lemmas on the decode

`esr_elx_ec_value_get off mask` is the body of the function when the name
`ESR_ELX_EC_OFFSET` stands for `off` and the name `EST_ElX_EX_MASK` stands for `mask`. -/

/-- Whatever the two names stand for, the decode returns no more than the mask. -/
theorem ec_get_le_mask (off mask esr : Nat) : esr_elx_ec_value_get off mask esr ≤ mask := by
  unfold esr_elx_ec_value_get
  exact le_trans (Nat.mod_le _ _) Nat.and_le_right

/-- Bit `i` of the decode is bit `off + i` of the 64-bit input, kept when the mask has bit
`i` set. -/
theorem ec_get_testBit (off mask esr i : Nat) :
    (esr_elx_ec_value_get off mask esr).testBit i
      = (decide (off + i < 64) && esr.testBit (off + i) && mask.testBit i) := by
  unfold esr_elx_ec_value_get U64_MODULUS
  rw [Nat.testBit_mod_two_pow, Nat.testBit_and, Nat.testBit_shiftRight,
    Nat.testBit_mod_two_pow]
  by_cases h : off + i < 64
  · have hi : i < 64 := by omega
    simp [h, hi]
  · simp [h]

theorem testBit_0x3F (i : Nat) : (0x3F : Nat).testBit i = decide (i < 6) := by
  have h63 : (0x3F : Nat) = 2 ^ 6 - 1 := by norm_num
  rw [h63, Nat.testBit_two_pow_sub_one]

/-- Bits of the claimed value `(esr >> 26) & 0x3F`. -/
theorem field_testBit (esr i : Nat) :
    ((esr >>> 26) &&& 0x3F).testBit i = (esr.testBit (26 + i) && decide (i < 6)) := by
  rw [Nat.testBit_and, Nat.testBit_shiftRight, testBit_0x3F]

/-- With the shift amount 26 and a mask whose low 38 bits are `0x3F`, the decode is the
field in bits 26 through 31. -/
theorem ec_get_is_field (mask esr : Nat) (hmask : mask % 2 ^ 38 = 0x3F) :
    esr_elx_ec_value_get 26 mask esr = ((esr % 2 ^ 64) >>> 26) &&& 0x3F := by
  apply Nat.eq_of_testBit_eq
  intro i
  rw [ec_get_testBit, field_testBit, Nat.testBit_mod_two_pow]
  by_cases hi : i < 38
  · have hm : mask.testBit i = decide (i < 6) := by
      have h := congrArg (fun x => Nat.testBit x i) hmask
      simp only [Nat.testBit_mod_two_pow, testBit_0x3F, hi, decide_True, Bool.true_and] at h
      exact h
    have h64 : 26 + i < 64 := by omega
    simp [hm, h64]
  · have h6 : ¬ i < 6 := by omega
    have h64 : ¬ 26 + i < 64 := by omega
    simp [h6, h64]

/-- With the shift amount 26 and a mask whose low 6 bits are set, `v << 26` decodes to `v`
for `v` in `[0, 63]`. -/
theorem ec_get_shiftLeft (mask v : Nat) (hmask : mask % 2 ^ 6 = 0x3F) (hv : v ≤ 63) :
    esr_elx_ec_value_get 26 mask (v <<< 26) = v := by
  apply Nat.eq_of_testBit_eq
  intro i
  rw [ec_get_testBit, Nat.testBit_shiftLeft]
  by_cases hi : i < 6
  · have hm : mask.testBit i = true := by
      have h := congrArg (fun x => Nat.testBit x i) hmask
      simp only [Nat.testBit_mod_two_pow, testBit_0x3F, hi, decide_True, Bool.true_and] at h
      exact h
    have h64 : 26 + i < 64 := by omega
    simp [hm, h64]
  · have hv2 : v < 2 ^ i := lt_of_lt_of_le (by omega : v < 2 ^ 6)
      (Nat.pow_le_pow_right (by norm_num) (by omega))
    have hvi : v.testBit i = false := Nat.testBit_lt_two_pow hv2
    simp [hvi]

/-- The only shift amount under which bit 0 of the decode of `2 ^ 26` is set is 26. -/
theorem off_eq_of_bit26 (off mask : Nat)
    (h : (esr_elx_ec_value_get off mask (2 ^ 26)).testBit 0 = true) : off = 26 := by
  rw [ec_get_testBit, Nat.testBit_two_pow] at h
  simp at h
  omega

/-! ## The exception class decode -/

/-- C1 (a defect of esr.h): the body of `esr_elx_ec_value_get` returns `(esr >> 26) & 0x3F`
for every 64-bit `esr` exactly when the name `ESR_ELX_EC_OFFSET` stands for 26 and the name
`EST_ElX_EX_MASK` stands for a number whose low 38 bits are `0x3F`. The header as written
gives neither name such a value; with the mask 0 the decode of `0x54000000` is 0, where the
claimed value is `0x15`. -/
theorem esr_elx_ec_value_get_is_field_iff (off mask : Nat) :
    ((∀ esr : Nat, esr < 2 ^ 64 →
        esr_elx_ec_value_get off mask esr = (esr >>> 26) &&& 0x3F)
      ↔ (off = 26 ∧ mask % 2 ^ 38 = 0x3F))
    ∧ esr_elx_ec_value_get 26 0 0x54000000 = 0
    ∧ ((0x54000000 : Nat) >>> 26) &&& 0x3F = 0x15 := by
  refine ⟨⟨?_, ?_⟩, by decide, by decide⟩
  · intro h
    have hoff : off = 26 := by
      apply off_eq_of_bit26 off mask
      rw [h (2 ^ 26) (by norm_num)]
      decide
    subst hoff
    refine ⟨rfl, ?_⟩
    apply Nat.eq_of_testBit_eq
    intro i
    rw [Nat.testBit_mod_two_pow, testBit_0x3F]
    by_cases hi : i < 38
    · have hlt : 2 ^ (26 + i) < 2 ^ 64 := Nat.pow_lt_pow_right (by norm_num) (by omega)
      have hb := congrArg (fun x => Nat.testBit x i) (h (2 ^ (26 + i)) hlt)
      simp only [ec_get_testBit, field_testBit, Nat.testBit_two_pow_self] at hb
      have h64 : 26 + i < 64 := by omega
      simp [h64] at hb
      simp [hi, hb]
    · have h6 : ¬ i < 6 := by omega
      simp [hi, h6]
  · rintro ⟨rfl, hmask⟩ esr hesr
    rw [ec_get_is_field mask esr hmask, Nat.mod_eq_of_lt hesr]

/-- C2 (a defect of esr.h): the body of `esr_elx_ec_value_get` returns `v` at `v << 26` for
every `v` in `[0, 63]` exactly when the name `ESR_ELX_EC_OFFSET` stands for 26 and the name
`EST_ElX_EX_MASK` stands for a number whose low 6 bits are all set. The header as written
gives neither name such a value; with the mask 0 the decode of `0x15 << 26` is 0. -/
theorem esr_elx_ec_value_get_shiftLeft_iff (off mask : Nat) :
    ((∀ v : Nat, v ≤ 63 → esr_elx_ec_value_get off mask (v <<< 26) = v)
      ↔ (off = 26 ∧ mask % 2 ^ 6 = 0x3F))
    ∧ esr_elx_ec_value_get 26 0 (0x15 <<< 26) = 0 := by
  refine ⟨⟨?_, ?_⟩, by decide⟩
  · intro h
    have hoff : off = 26 := by
      apply off_eq_of_bit26 off mask
      have h1 := h 1 (by norm_num)
      have e : (1 : Nat) <<< 26 = 2 ^ 26 := by decide
      rw [e] at h1
      rw [h1]
      decide
    subst hoff
    refine ⟨rfl, ?_⟩
    apply Nat.eq_of_testBit_eq
    intro i
    rw [Nat.testBit_mod_two_pow, testBit_0x3F]
    by_cases hi : i < 6
    · have hb := congrArg (fun x => Nat.testBit x i) (h 63 (le_refl 63))
      simp only [ec_get_testBit] at hb
      have h63 : (63 : Nat).testBit i = true := by
        have := testBit_0x3F i
        simpa [hi] using this
      rw [h63] at hb
      simp only [Bool.and_eq_true] at hb
      simp [hi, hb.2]
    · simp [hi]
  · rintro ⟨rfl, hmask⟩ v hv
    exact ec_get_shiftLeft mask v hmask hv

/-- C3, as stated, fails whatever the two names of the body stand for: for no shift amount
and no mask does the decode of `0x94000000` equal `0x15`. The bits set in `0x94000000` are
26, 28 and 31, and `0x15` needs three set bits at distances 2 and 2. -/
theorem esr_elx_ec_value_get_0x94000000_ne_svc64 :
    ¬ ∃ off mask : Nat, esr_elx_ec_value_get off mask 0x94000000 = 0x15 := by
  rintro ⟨off, mask, h⟩
  have h0 := congrArg (fun x => Nat.testBit x 0) h
  have h4 := congrArg (fun x => Nat.testBit x 4) h
  simp only [ec_get_testBit] at h0 h4
  have e0 : (0x15 : Nat).testBit 0 = true := by decide
  have e4 : (0x15 : Nat).testBit 4 = true := by decide
  rw [e0] at h0
  rw [e4] at h4
  simp only [Bool.and_eq_true, decide_eq_true_eq] at h0 h4
  obtain ⟨⟨-, b0⟩, -⟩ := h0
  obtain ⟨⟨hlt, b4⟩, -⟩ := h4
  have hoff : off < 60 := by omega
  rw [Nat.add_zero] at b0
  interval_cases off <;> revert b0 b4 <;> decide

/-- C3, amended: with the shift amount 26 and the mask `0x3F`, the value `0x94000000`
decodes to `0x25`, the literal of the line `ESR_ELX_EC_DABT_CUR`, and the value that decodes
to `0x15`, the literal of the line `ESR_ELX_EC_SVC_64`, is `0x54000000`, which is
`0x15 << 26`. -/
theorem esr_elx_ec_value_get_svc64_example :
    esr_elx_ec_value_get 26 0x3F 0x94000000 = 0x25
    ∧ ESR_ELX_EC_DABT_CUR = 0x25
    ∧ (0x15 : Nat) <<< 26 = 0x54000000
    ∧ esr_elx_ec_value_get 26 0x3F 0x54000000 = 0x15
    ∧ ESR_ELX_EC_SVC_64 = 0x15 := by
  refine ⟨?_, ?_, ?_, ?_, ?_⟩ <;> decide

/-- C4 (a defect of esr.h): the body of `esr_elx_ec_value_get` is bounded by the number the
name `EST_ElX_EX_MASK` stands for, whatever that is, and by nothing smaller: with the mask
`0xFF` it returns 229 at `0xFFFFFFFF94000000`. With the shift amount 26 and the mask `0x3F`
the value is in `[0, 63]` for every input and the reserved codes `0x02` and `0x3D` are
returned as they are. The header as written gives neither name a value. -/
theorem esr_elx_ec_value_get_bound (off mask esr : Nat) :
    esr_elx_ec_value_get off mask esr ≤ mask
    ∧ esr_elx_ec_value_get 26 0xFF 0xFFFFFFFF94000000 = 229
    ∧ esr_elx_ec_value_get 26 0x3F esr ≤ 63
    ∧ esr_elx_ec_value_get 26 0x3F 0xFFFFFFFF0BFFFFFF = 0x02
    ∧ esr_elx_ec_value_get 26 0x3F 0xFFFFFFFFF7FFFFFF = 0x3D := by
  refine ⟨ec_get_le_mask off mask esr, by decide, ec_get_le_mask 26 0x3F esr, ?_, ?_⟩ <;>
    decide

/-- C10 (a defect of esr.h): the binary literal of every exception class line of esr.h
equals the hexadecimal value of its comment (among them `0x11` on the line
`ESR_ELX_EC_SVC_32`, `0x15` on `ESR_ELX_EC_SVC_64` and `0x3F` on `ESR_ELx_EC_MAX`); the 45
literals lie in `[0, 63]` and are pairwise distinct; the case labels of the `switch` of
`SynchronousInterrupt` name the same lines in the same order; and with the shift amount 26
and the mask `0x3F` each literal is the decode of some 64-bit value. The header as written
puts a comma in front of every literal, so no name stands for its literal. -/
theorem esr_ec_literals_documented :
    ESR_EC_constants = ESR_EC_documented
    ∧ ESR_ELX_EC_UNKNOWN = 0x0 ∧ ESR_ELX_EC_SVC_32 = 0x11 ∧ ESR_ELX_EC_SVC_64 = 0x15
    ∧ ESR_ELx_EC_MAX = 0x3F
    ∧ (∀ c ∈ ESR_EC_constants, c ≤ 63)
    ∧ ESR_EC_constants.Nodup
    ∧ ESR_EC_constants.length = 45
    ∧ SynchronousInterrupt_case_labels = ESR_EC_constants
    ∧ (∀ c ∈ SynchronousInterrupt_case_labels,
        ∃ esr : Nat, esr < 2 ^ 64 ∧ esr_elx_ec_value_get 26 0x3F esr = c) := by
  have hle : ∀ c ∈ ESR_EC_constants, c ≤ 63 := by decide
  refine ⟨by decide, by decide, by decide, by decide, by decide, hle, by decide, by decide,
    rfl, ?_⟩
  intro c hc
  have hc63 : c ≤ 63 := hle c hc
  refine ⟨c <<< 26, ?_, ec_get_shiftLeft 0x3F c (by decide) hc63⟩
  rw [Nat.shiftLeft_eq]
  omega

/-! ## Helper lemmas on the table and the trampolines -/

theorem register_at {n : Nat} (tbl : VectorTable n) (id : Fin n) (h c : Nat) :
    register tbl id h c id = ⟨h, c⟩ := by
  simp [register]

theorem register_away {n : Nat} (tbl : VectorTable n) (id j : Fin n) (h c : Nat)
    (hne : j ≠ id) : register tbl id h c j = tbl j := by
  simp [register, hne]

/-- The `switch` of `SynchronousInterrupt` issues no call, whichever branch is taken. -/
theorem SynchronousInterrupt_calls {n : Nat} (off mask : Nat) (id : Fin n) (esr_el1 : Nat)
    (tbl : VectorTable n) :
    SynchronousInterrupt off mask id esr_el1 tbl = [⟨(tbl id).Handler, (tbl id).Data⟩] := by
  unfold SynchronousInterrupt
  by_cases hmem :
      esr_elx_ec_value_get off mask (SYSREG_READ esr_el1) ∈ SynchronousInterrupt_case_labels
  · simp [hmem]
  · simp [hmem]

/-! ## The trampolines -/

/-- C5: for every table, every value of the two names of the decode and any two contents
`e1`, `e2` of `esr_el1`, `SynchronousInterrupt` issues exactly one call, through the
`Handler` of the slot `XIL_EXCEPTION_ID_SYNC_INT` with the `Data` of that slot, so the calls
it issues are the same for `e1` and `e2`. -/
theorem SynchronousInterrupt_same_action {n : Nat} (off mask : Nat) (sync : Fin n)
    (tbl : VectorTable n) (e1 e2 : Nat) :
    SynchronousInterrupt off mask sync e1 tbl = [⟨(tbl sync).Handler, (tbl sync).Data⟩]
    ∧ SynchronousInterrupt off mask sync e2 tbl = [⟨(tbl sync).Handler, (tbl sync).Data⟩]
    ∧ SynchronousInterrupt off mask sync e1 tbl = SynchronousInterrupt off mask sync e2 tbl := by
  rw [SynchronousInterrupt_calls, SynchronousInterrupt_calls]
  exact ⟨rfl, rfl, rfl⟩

/-- C6: each of the eight trampolines issues exactly one call, through the `Handler` of the
slot of its own identifier and with the `Data` of that same slot, which is what
`dispatch` of the specification does for that identifier; and a table `tbl2` that agrees
with `tbl` at that one slot gives the same calls, whatever its other slots hold. -/
theorem trampolines_call_own_slot_once {n : Nat}
    (fiq irq und swi dabt pabt sync serr : Fin n) (off mask esr_el1 : Nat)
    (tbl tbl2 : VectorTable n) :
    (FIQInterrupt fiq tbl = [⟨(tbl fiq).Handler, (tbl fiq).Data⟩]
      ∧ IRQInterrupt irq tbl = [⟨(tbl irq).Handler, (tbl irq).Data⟩]
      ∧ UndefinedException und tbl = [⟨(tbl und).Handler, (tbl und).Data⟩]
      ∧ SWInterrupt swi tbl = [⟨(tbl swi).Handler, (tbl swi).Data⟩]
      ∧ DataAbortInterrupt dabt tbl = [⟨(tbl dabt).Handler, (tbl dabt).Data⟩]
      ∧ PrefetchAbortInterrupt pabt tbl = [⟨(tbl pabt).Handler, (tbl pabt).Data⟩]
      ∧ SynchronousInterrupt off mask sync esr_el1 tbl = [⟨(tbl sync).Handler, (tbl sync).Data⟩]
      ∧ SErrorInterrupt serr tbl = [⟨(tbl serr).Handler, (tbl serr).Data⟩])
    ∧ (FIQInterrupt fiq tbl = dispatch tbl fiq
      ∧ IRQInterrupt irq tbl = dispatch tbl irq
      ∧ UndefinedException und tbl = dispatch tbl und
      ∧ SWInterrupt swi tbl = dispatch tbl swi
      ∧ DataAbortInterrupt dabt tbl = dispatch tbl dabt
      ∧ PrefetchAbortInterrupt pabt tbl = dispatch tbl pabt
      ∧ SynchronousInterrupt off mask sync esr_el1 tbl = dispatch tbl sync
      ∧ SErrorInterrupt serr tbl = dispatch tbl serr)
    ∧ ((tbl2 fiq = tbl fiq → FIQInterrupt fiq tbl2 = FIQInterrupt fiq tbl)
      ∧ (tbl2 irq = tbl irq → IRQInterrupt irq tbl2 = IRQInterrupt irq tbl)
      ∧ (tbl2 und = tbl und → UndefinedException und tbl2 = UndefinedException und tbl)
      ∧ (tbl2 swi = tbl swi → SWInterrupt swi tbl2 = SWInterrupt swi tbl)
      ∧ (tbl2 dabt = tbl dabt → DataAbortInterrupt dabt tbl2 = DataAbortInterrupt dabt tbl)
      ∧ (tbl2 pabt = tbl pabt →
          PrefetchAbortInterrupt pabt tbl2 = PrefetchAbortInterrupt pabt tbl)
      ∧ (tbl2 sync = tbl sync →
          SynchronousInterrupt off mask sync esr_el1 tbl2
            = SynchronousInterrupt off mask sync esr_el1 tbl)
      ∧ (tbl2 serr = tbl serr → SErrorInterrupt serr tbl2 = SErrorInterrupt serr tbl)) := by
  refine ⟨⟨rfl, rfl, rfl, rfl, rfl, rfl, SynchronousInterrupt_calls _ _ _ _ _, rfl⟩,
    ⟨rfl, rfl, rfl, rfl, rfl, rfl, SynchronousInterrupt_calls _ _ _ _ _, rfl⟩,
    ⟨?_, ?_, ?_, ?_, ?_, ?_, ?_, ?_⟩⟩
  · intro h; simp [FIQInterrupt, h]
  · intro h; simp [IRQInterrupt, h]
  · intro h; simp [UndefinedException, h]
  · intro h; simp [SWInterrupt, h]
  · intro h; simp [DataAbortInterrupt, h]
  · intro h; simp [PrefetchAbortInterrupt, h]
  · intro h; simp [SynchronousInterrupt_calls, h]
  · intro h; simp [SErrorInterrupt, h]

/-- C7: after `register(id, h, c)`, `lookup(id)` is exactly the pair `(h, c)`, `dispatch(id)`
issues exactly the one call `h(c)`, and so does each trampoline of vectors.c when `id` is
its identifier. The identifier is valid by its type: an index into the table. -/
theorem register_then_dispatch {n : Nat} (tbl : VectorTable n) (id : Fin n)
    (h c off mask esr_el1 : Nat) :
    lookup (register tbl id h c) id = ⟨h, c⟩
    ∧ dispatch (register tbl id h c) id = [⟨h, c⟩]
    ∧ FIQInterrupt id (register tbl id h c) = [⟨h, c⟩]
    ∧ IRQInterrupt id (register tbl id h c) = [⟨h, c⟩]
    ∧ UndefinedException id (register tbl id h c) = [⟨h, c⟩]
    ∧ SWInterrupt id (register tbl id h c) = [⟨h, c⟩]
    ∧ DataAbortInterrupt id (register tbl id h c) = [⟨h, c⟩]
    ∧ PrefetchAbortInterrupt id (register tbl id h c) = [⟨h, c⟩]
    ∧ SynchronousInterrupt off mask id esr_el1 (register tbl id h c) = [⟨h, c⟩]
    ∧ SErrorInterrupt id (register tbl id h c) = [⟨h, c⟩] := by
  have hr := register_at tbl id h c
  refine ⟨?_, ?_, ?_, ?_, ?_, ?_, ?_, ?_, ?_, ?_⟩
  · simp [lookup, hr]
  · simp [dispatch, lookup, hr]
  · simp [FIQInterrupt, hr]
  · simp [IRQInterrupt, hr]
  · simp [UndefinedException, hr]
  · simp [SWInterrupt, hr]
  · simp [DataAbortInterrupt, hr]
  · simp [PrefetchAbortInterrupt, hr]
  · simp [SynchronousInterrupt_calls, hr]
  · simp [SErrorInterrupt, hr]

/-- C8: for identifiers `id_a ≠ id_b`, `register(id_a, h, c)` leaves `lookup(id_b)` as it
was, so `dispatch(id_b)` and each trampoline whose identifier is `id_b` issue the call they
issued before. -/
theorem register_independent {n : Nat} (tbl : VectorTable n) (id_a id_b : Fin n)
    (h c off mask esr_el1 : Nat) (hne : id_a ≠ id_b) :
    lookup (register tbl id_a h c) id_b = lookup tbl id_b
    ∧ dispatch (register tbl id_a h c) id_b = dispatch tbl id_b
    ∧ FIQInterrupt id_b (register tbl id_a h c) = FIQInterrupt id_b tbl
    ∧ IRQInterrupt id_b (register tbl id_a h c) = IRQInterrupt id_b tbl
    ∧ UndefinedException id_b (register tbl id_a h c) = UndefinedException id_b tbl
    ∧ SWInterrupt id_b (register tbl id_a h c) = SWInterrupt id_b tbl
    ∧ DataAbortInterrupt id_b (register tbl id_a h c) = DataAbortInterrupt id_b tbl
    ∧ PrefetchAbortInterrupt id_b (register tbl id_a h c) = PrefetchAbortInterrupt id_b tbl
    ∧ SynchronousInterrupt off mask id_b esr_el1 (register tbl id_a h c)
        = SynchronousInterrupt off mask id_b esr_el1 tbl
    ∧ SErrorInterrupt id_b (register tbl id_a h c) = SErrorInterrupt id_b tbl := by
  have hr := register_away tbl id_a id_b h c (Ne.symm hne)
  refine ⟨?_, ?_, ?_, ?_, ?_, ?_, ?_, ?_, ?_, ?_⟩
  · simp [lookup, hr]
  · simp [dispatch, lookup, hr]
  · simp [FIQInterrupt, hr]
  · simp [IRQInterrupt, hr]
  · simp [UndefinedException, hr]
  · simp [SWInterrupt, hr]
  · simp [DataAbortInterrupt, hr]
  · simp [PrefetchAbortInterrupt, hr]
  · simp [SynchronousInterrupt_calls, hr]
  · simp [SErrorInterrupt, hr]

/-- C8 on the sample table: registering at slot 5 leaves slot 6 and the trampolines reading
slot 6 as they were. -/
theorem register_independent_witness :
    (5 : Fin 7) ≠ 6
    ∧ lookup (register sampleTable 5 0xAAAA 0xBBBB) 6 = lookup sampleTable 6
    ∧ lookup (register sampleTable 5 0xAAAA 0xBBBB) 6 = ⟨0x1060, 0x2006⟩
    ∧ FIQInterrupt 6 (register sampleTable 5 0xAAAA 0xBBBB) = [⟨0x1060, 0x2006⟩]
    ∧ DataAbortInterrupt 6 (register sampleTable 5 0xAAAA 0xBBBB)
        = DataAbortInterrupt 6 sampleTable :=
  have w := register_independent sampleTable 5 6 0xAAAA 0xBBBB 26 0x3F 0x54000000 (by decide)
  ⟨by decide, w.1, by rw [w.1]; rfl, by rw [w.2.2.1]; rfl, w.2.2.2.2.2.2.1⟩

end Vectors
